import Mathlib

/-!
# ofxKinectForWindows2 : `Device` lifecycle and source registry

A shallow embedding of `src/ofxKinectForWindows2/Device.cpp`.

* A `shared_ptr<Source::Base>` is modelled by the record `Source`: the address of the
  pointee (`id`), its dynamic type (`kind`) and the parts of its state that `Device`
  observes or changes through the source interface.
* The outside world (the Kinect SDK, the source classes, the openFrameworks graphics
  calls and the loggers) is modelled by explicit outcome arguments of each operation and
  by the list of `Event`s the operation issues, in program order.
* A C++ exception that leaves a member function is an explicit `some what` in the
  returned value; only `Device::update` has no handler around the calls it makes.
-/

namespace ofxKinectForWindows2

/-- The concrete source classes `Source::Depth`, `Source::Color`, ... the six
`initXSource` / `getXSource` members are instantiated with. -/
inductive Kind where
  | Depth
  | Color
  | Infrared
  | LongExposureInfrared
  | BodyIndex
  | Body
deriving DecidableEq, Repr

/-- A non-null `IKinectSensor *`. The member `sensor` is an `Option Handle`, with `none`
for `nullptr`. -/
abbrev Handle := Nat

/-- The pointee of a `shared_ptr<Source::Base>` held in `Device::sources`.
`id` is the address of the object, `kind` its dynamic type, `sensor` the argument its
`init` was called with, `frameNew` what `isFrameNew()` currently returns and `useTexture`
the value last given to `setUseTexture`. -/
structure Source where
  id : Nat
  kind : Kind
  sensor : Option Handle
  frameNew : Bool
  useTexture : Bool
deriving DecidableEq, Repr

/-- Calls that leave `Device.cpp`, in the order the code issues them. -/
inductive Event where
  | logError (msg : String)
  | logWarningAlreadyInitialised (k : Kind)
  | sdkGetDefaultKinectSensor
  | sdkOpen (h : Handle)
  | sdkClose (h : Handle)
  | sdkGetIsOpen (h : Handle)
  | srcMake (k : Kind) (id : Nat)
  | srcInit (id : Nat) (sensor : Option Handle)
  | srcUpdate (id : Nat)
  | srcIsFrameNew (id : Nat)
  | srcSetUseTexture (id : Nat) (b : Bool)
  | glPushAttrib
  | glPointSize (size : Nat)
  | glEnablePointSmooth
  | glPopAttrib
  | ofPushStyle
  | ofPopStyle
  | ofPushMatrix
  | ofPopMatrix
  | ofRotate (deg x y z : Nat)
  | ofMultMatrixFloorTransform (body : Nat)
  | ofDrawGridPlane (scale : Nat)
  | ofNoFill
  | ofSetLineWidth (w : Nat)
  | ofSetColorGrayAlpha (gray alpha : Nat)
  | ofSetColorRGB (r g b : Nat)
  | textureBind (color : Nat)
  | textureUnbind (color : Nat)
  | getMesh (depth : Nat)
  | meshDrawVertices
  | meshDrawWireframe
  | meshDrawFaces
  | bodyDrawWorld (body : Nat)
  | drawFrustum (src : Nat)
deriving DecidableEq, Repr

/-- The data members of `class Device`. -/
structure Device where
  sensor : Option Handle
  sources : List Source
  isFrameNewFlag : Bool
deriving DecidableEq, Repr

/-- What a member function leaves behind: the object afterwards, the value handed to the
caller and the calls issued on the way. -/
structure Ret (α : Type) where
  device : Device
  value : α
  events : List Event

/-- `Device::Device()`. -/
def Device.new : Device :=
  { sensor := none, sources := [], isFrameNewFlag := false }

/-- `Device::open()`. `discovery` is what `GetDefaultKinectSensor` does: `none` when it
reports `FAILED`, `some h` when it stores the pointer `h`; `openOk` is whether
`sensor->Open()` reports success. On either failure the function throws an `Exception`,
which its own handler catches: the message is logged and the member is reset. (The class
`Exception` is declared outside `Device.cpp`; as the spec has every failure of `open`
caught inside it, the class is taken to derive from `std::exception`.) -/
def Device.open (d : Device) (discovery : Option Handle) (openOk : Bool) : Ret Unit :=
  match discovery with
  | none =>
    { device := { d with sensor := none }
      value := ()
      events := [Event.sdkGetDefaultKinectSensor, Event.logError "Failed to find sensor"] }
  | some h =>
    if openOk then
      { device := { d with sensor := some h }
        value := ()
        events := [Event.sdkGetDefaultKinectSensor, Event.sdkOpen h] }
    else
      { device := { d with sensor := none }
        value := ()
        events := [Event.sdkGetDefaultKinectSensor, Event.sdkOpen h,
                   Event.logError "Failed to open sensor"] }

/-- `Device::close()`. -/
def Device.close (d : Device) : Ret Unit :=
  match d.sensor with
  | none => { device := d, value := (), events := [] }
  | some h =>
    { device := { d with sensor := none }, value := (), events := [Event.sdkClose h] }

/-- `Device::isOpen()`. `query` is what `get_IsOpen` does: `none` when it reports
`FAILED`, `some b` when it stores `b`. -/
def Device.isOpen (d : Device) (query : Option Bool) : Ret Bool :=
  match d.sensor with
  | none => { device := d, value := false, events := [] }
  | some h =>
    match query with
    | some result => { device := d, value := result, events := [Event.sdkGetIsOpen h] }
    | none =>
      { device := d
        value := false
        events := [Event.sdkGetIsOpen h, Event.logError "Failed to check if sensor is open"] }

/-- Modelled from the spec: the member template `Device::getSource<SourceType>()` is
declared in `Device.h`, which is not among the sources. The spec gives it as the typed
lookup ("returns the unique Source of Kind K, or none"), implemented by a runtime downcast
over the container; the first source of the kind in insertion order is returned. -/
def Device.getSource (d : Device) (K : Kind) : Option Source :=
  d.sources.find? (fun source => decide (source.kind = K))

/-- The macro `CHECK_OPEN`: it logs when the sensor is null, and control continues after
it in either case. -/
def Device.CHECK_OPEN (d : Device) : List Event :=
  match d.sensor with
  | none => [Event.logError "Failed : Sensor is not open"]
  | some _ => []

/-- What the source class does inside the `try` block of `initSource`:
`MAKE(SourceType)` throws, or `init` throws, or both return and the new object starts
with the given observable state. Thrown objects are `std::exception`s with the given
`what()`. -/
inductive InitOutcome where
  | makeThrows (what : String)
  | initThrows (what : String)
  | succeeds (frameNew useTexture : Bool)
deriving DecidableEq, Repr

/-- `Device::initSource<SourceType>()`; `addr` is the address `MAKE` allocates at. -/
def Device.initSource (d : Device) (K : Kind) (addr : Nat) (outcome : InitOutcome) :
    Ret (Option Source) :=
  match d.getSource K with
  | some source =>
    { device := d
      value := some source
      events := d.CHECK_OPEN ++ [Event.logWarningAlreadyInitialised K] }
  | none =>
    match outcome with
    | InitOutcome.makeThrows what =>
      { device := d
        value := none
        events := d.CHECK_OPEN ++ [Event.logError what] }
    | InitOutcome.initThrows what =>
      { device := d
        value := none
        events := d.CHECK_OPEN ++
          [Event.srcMake K addr, Event.srcInit addr d.sensor, Event.logError what] }
    | InitOutcome.succeeds frameNew useTexture =>
      let depthSource : Source :=
        { id := addr, kind := K, sensor := d.sensor, frameNew := frameNew,
          useTexture := useTexture }
      { device := { d with sources := d.sources ++ [depthSource] }
        value := some depthSource
        events := d.CHECK_OPEN ++ [Event.srcMake K addr, Event.srcInit addr d.sensor] }

/-- `Device::initDepthSource()`. -/
def Device.initDepthSource (d : Device) (addr : Nat) (outcome : InitOutcome) :=
  d.initSource Kind.Depth addr outcome

/-- `Device::initColorSource()`. -/
def Device.initColorSource (d : Device) (addr : Nat) (outcome : InitOutcome) :=
  d.initSource Kind.Color addr outcome

/-- `Device::initInfraredSource()`. -/
def Device.initInfraredSource (d : Device) (addr : Nat) (outcome : InitOutcome) :=
  d.initSource Kind.Infrared addr outcome

/-- `Device::initLongExposureInfraredSource()`. -/
def Device.initLongExposureInfraredSource (d : Device) (addr : Nat) (outcome : InitOutcome) :=
  d.initSource Kind.LongExposureInfrared addr outcome

/-- `Device::initBodyIndexSource()`. -/
def Device.initBodyIndexSource (d : Device) (addr : Nat) (outcome : InitOutcome) :=
  d.initSource Kind.BodyIndex addr outcome

/-- `Device::initBodySource()`. -/
def Device.initBodySource (d : Device) (addr : Nat) (outcome : InitOutcome) :=
  d.initSource Kind.Body addr outcome

/-- What one call of a source's `update()` does: it returns, or it throws a
`std::exception`; `frameNew` is what the source's `isFrameNew()` reads afterwards. -/
inductive UpdateOutcome where
  | returned (frameNew : Bool)
  | threw (what : String) (frameNew : Bool)
deriving DecidableEq, Repr

/-- The value of `isFrameNew()` once the call is over. -/
def UpdateOutcome.frameNew : UpdateOutcome → Bool
  | UpdateOutcome.returned frameNew => frameNew
  | UpdateOutcome.threw _ frameNew => frameNew

/-- Whether the call threw. -/
def UpdateOutcome.isThrow : UpdateOutcome → Bool
  | UpdateOutcome.returned _ => false
  | UpdateOutcome.threw _ _ => true

/-- State of the range-`for` in `Device::update`: the container, the flag, the exception
in flight (if any) and the calls made. -/
structure LoopState where
  sources : List Source
  flag : Bool
  thrown : Option String
  events : List Event
deriving DecidableEq, Repr

/-- The range-`for` of `Device::update()` over the sources still to visit, `flag` being
`isFrameNewFlag` on entry. There is no handler: an exception thrown by `update()` ends the
loop and travels on. -/
def updateLoop (upd : Source → UpdateOutcome) : List Source → Bool → LoopState
  | [], flag => { sources := [], flag := flag, thrown := none, events := [] }
  | source :: rest, flag =>
    match upd source with
    | UpdateOutcome.returned frameNew =>
      let r := updateLoop upd rest (flag || frameNew)
      { sources := { source with frameNew := frameNew } :: r.sources
        flag := r.flag
        thrown := r.thrown
        events := Event.srcUpdate source.id :: Event.srcIsFrameNew source.id :: r.events }
    | UpdateOutcome.threw what frameNew =>
      { sources := { source with frameNew := frameNew } :: rest
        flag := flag
        thrown := some what
        events := [Event.srcUpdate source.id] }

/-- `Device::update()`. `upd` is what `update()` of each registered source does in this
call. The value is the exception that reaches the caller, `none` on a normal return. -/
def Device.update (d : Device) (upd : Source → UpdateOutcome) : Ret (Option String) :=
  let r := updateLoop upd d.sources false
  { device := { d with sources := r.sources, isFrameNewFlag := r.flag }
    value := r.thrown
    events := r.events }

/-- `Device::isFrameNew()`. -/
def Device.isFrameNew (d : Device) : Bool :=
  d.isFrameNewFlag

/-- `Device::getSources()`. -/
def Device.getSources (d : Device) : List Source :=
  d.sources

/-- `Device::getDepthSource()`. -/
def Device.getDepthSource (d : Device) : Option Source :=
  d.getSource Kind.Depth

/-- `Device::getColorSource()`. -/
def Device.getColorSource (d : Device) : Option Source :=
  d.getSource Kind.Color

/-- `Device::getInfraredSource()`. -/
def Device.getInfraredSource (d : Device) : Option Source :=
  d.getSource Kind.Infrared

/-- `Device::getLongExposureInfraredSource()`. -/
def Device.getLongExposureInfraredSource (d : Device) : Option Source :=
  d.getSource Kind.LongExposureInfrared

/-- `Device::getBodyIndexSource()`. -/
def Device.getBodyIndexSource (d : Device) : Option Source :=
  d.getSource Kind.BodyIndex

/-- `Device::getBodySource()`. -/
def Device.getBodySource (d : Device) : Option Source :=
  d.getSource Kind.Body

/-- `Device::getSensor()`. -/
def Device.getSensor (d : Device) : Option Handle :=
  d.sensor

/-- `Device::setUseTextures(bool)`. `hasTexture K` is whether the class of kind `K`
derives from `ofBaseHasTexture`, that is whether the `dynamic_pointer_cast` yields a
non-null pointer; the classes are not among the sources, so it is an argument. -/
def Device.setUseTextures (d : Device) (useTexture : Bool) (hasTexture : Kind → Bool) :
    Ret Unit :=
  { device :=
      { d with sources := d.getSources.map (fun source =>
          if hasTexture source.kind then { source with useTexture := useTexture }
          else source) }
    value := ()
    events := (d.getSources.filter (fun source => hasTexture source.kind)).map
      (fun imageSource => Event.srcSetUseTexture imageSource.id useTexture) }

/-- The local `usePointSize` of `drawWorld`: `window` is `none` when
`ofGetCurrentWindow()` gives a null pointer and `some v` when the window's settings have
`glVersionMajor = v`. -/
def usePointSize (window : Option Int) : Bool :=
  match window with
  | some glVersionMajor => decide (glVersionMajor ≤ 2)
  | none => false

/-- The block `//point cloud` of `drawWorld`. -/
def drawPointCloud (colorSource : Option Source) (depthSource : Source)
    (window : Option Int) : List Event :=
  (if usePointSize window then
      [Event.glPushAttrib, Event.glPointSize 5, Event.glEnablePointSmooth]
    else [])
  ++ [Event.ofPushStyle]
  ++ (match colorSource with
      | some color => [Event.textureBind color.id]
      | none => [])
  ++ [Event.getMesh depthSource.id,
      Event.meshDrawVertices,
      Event.ofSetColorGrayAlpha 255 150,
      Event.meshDrawWireframe,
      Event.ofSetColorGrayAlpha 255 50,
      Event.meshDrawFaces]
  ++ (match colorSource with
      | some color => [Event.textureUnbind color.id]
      | none => [])
  ++ [Event.ofPopStyle]
  ++ (if usePointSize window then [Event.glPopAttrib] else [])

/-- The block `//bodies and floor` of `drawWorld`. -/
def drawBodies (bodySource : Option Source) : List Event :=
  match bodySource with
  | some body =>
    [Event.bodyDrawWorld body.id,
     Event.ofPushMatrix,
     Event.ofRotate 90 0 0 1,
     Event.ofMultMatrixFloorTransform body.id,
     Event.ofDrawGridPlane 5,
     Event.ofPopMatrix]
  | none => []

/-- The block `//draw the view cones of depth and colour cameras` of `drawWorld`. -/
def drawFrustums (colorSource : Option Source) (depthSource : Source) : List Event :=
  [Event.ofPushStyle,
   Event.ofNoFill,
   Event.ofSetLineWidth 2,
   Event.ofSetColorRGB 100 200 100,
   Event.drawFrustum depthSource.id]
  ++ (match colorSource with
      | some color => [Event.ofSetColorRGB 200 100 100, Event.drawFrustum color.id]
      | none => [])
  ++ [Event.ofPopStyle]

/-- `Device::drawWorld()`; the calls into the sources and into openFrameworks return
normally. -/
def Device.drawWorld (d : Device) (window : Option Int) : Ret Unit :=
  let colorSource := d.getColorSource
  let depthSource := d.getDepthSource
  let bodySource := d.getBodySource
  match depthSource with
  | none =>
    { device := d, value := (), events := [Event.logError "No depth source initialised"] }
  | some depth =>
    { device := d
      value := ()
      events := drawPointCloud colorSource depth window ++ drawBodies bodySource
        ++ drawFrustums colorSource depth }

/-! ## Sequences of calls -/

/-- One call of a public member by the host application, together with what the outside
world answers during that call. -/
inductive Op where
  | open (discovery : Option Handle) (openOk : Bool)
  | close
  | isOpen (query : Option Bool)
  | initSource (K : Kind) (outcome : InitOutcome)
  | getSource (K : Kind)
  | getSources
  | getSensor
  | update (upd : Source → UpdateOutcome)
  | isFrameNew
  | setUseTextures (useTexture : Bool) (hasTexture : Kind → Bool)
  | drawWorld (window : Option Int)

/-- A `Device` in its process: `nextAddr` is the address the next `MAKE` allocates at
(every allocation gets an address no earlier object has) and `trace` the calls issued so
far. -/
structure World where
  device : Device
  nextAddr : Nat
  trace : List Event

/-- The process right after `Device::Device()`. -/
def World.fresh : World :=
  { device := Device.new, nextAddr := 0, trace := [] }

/-- Continue with the outcome of a member call. -/
def World.after {α : Type} (w : World) (r : Ret α) : World :=
  { w with device := r.device, trace := w.trace ++ r.events }

/-- The host performs one call. An exception leaving `update` is taken to be handled by
the host, which goes on using the object. -/
def World.step (w : World) : Op → World
  | Op.open discovery openOk => w.after (w.device.open discovery openOk)
  | Op.close => w.after w.device.close
  | Op.isOpen query => w.after (w.device.isOpen query)
  | Op.initSource K outcome =>
    { w.after (w.device.initSource K w.nextAddr outcome) with nextAddr := w.nextAddr + 1 }
  | Op.getSource _ => w
  | Op.getSources => w
  | Op.getSensor => w
  | Op.update upd => w.after (w.device.update upd)
  | Op.isFrameNew => w
  | Op.setUseTextures useTexture hasTexture =>
    w.after (w.device.setUseTextures useTexture hasTexture)
  | Op.drawWorld window => w.after (w.device.drawWorld window)

/-- The host performs the calls from left to right. -/
def World.run (w : World) (ops : List Op) : World :=
  ops.foldl World.step w

/-- The source as `Device::update` leaves it once its `update()` call is over. -/
def Source.updated (upd : Source → UpdateOutcome) (source : Source) : Source :=
  { source with frameNew := (upd source).frameNew }

/-- The two calls the body of the loop in `Device::update` makes on a source whose
`update()` returns. -/
def updateCalls (source : Source) : List Event :=
  [Event.srcUpdate source.id, Event.srcIsFrameNew source.id]

/-- Whether the call is the SDK's `Close`. -/
def Event.isSdkClose : Event → Bool
  | Event.sdkClose _ => true
  | _ => false

/-- Scan of a call sequence for one push/pop pair, `depth` being the number of pushes
still open: `false` as soon as a pop comes with nothing open. -/
def wellNested (push pop : Event) : List Event → Nat → Bool
  | [], _ => true
  | e :: es, depth =>
    if e == pop then
      match depth with
      | 0 => false
      | k + 1 => wellNested push pop es k
    else if e == push then wellNested push pop es (depth + 1)
    else wellNested push pop es depth

/-- What no member of `Device` ever changes in a registered source: the address of the
object, its dynamic type and the handle it was initialised with. -/
def Source.key (source : Source) : Nat × Kind × Option Handle :=
  (source.id, source.kind, source.sensor)

/-- The registry seen through `Source.key`, in insertion order. -/
def Device.keys (d : Device) : List (Nat × Kind × Option Handle) :=
  d.sources.map Source.key

/-! ## `Device::update` -/

theorem updateLoop_of_returned (upd : Source → UpdateOutcome) (l : List Source) :
    ∀ flag : Bool, (∀ s ∈ l, (upd s).isThrow = false) →
      updateLoop upd l flag =
        { sources := l.map (Source.updated upd)
          flag := flag || l.any (fun s => (upd s).frameNew)
          thrown := none
          events := l.flatMap updateCalls } := by
  induction l with
  | nil => intro flag _; simp [updateLoop]
  | cons a rest ih =>
    intro flag h
    have ha : (upd a).isThrow = false := h a (List.mem_cons_self a rest)
    have hrest : ∀ s ∈ rest, (upd s).isThrow = false :=
      fun s hs => h s (List.mem_cons_of_mem a hs)
    cases hu : upd a with
    | returned fn =>
      simp [updateLoop, hu, ih (flag || fn) hrest, Source.updated, UpdateOutcome.frameNew,
        updateCalls, Bool.or_assoc]
    | threw what fn => simp [hu, UpdateOutcome.isThrow] at ha

theorem updateLoop_of_first_throw (upd : Source → UpdateOutcome) (pre : List Source) :
    ∀ (flag : Bool) (s : Source) (post : List Source) (what : String) (fn : Bool),
      (∀ x ∈ pre, (upd x).isThrow = false) → upd s = UpdateOutcome.threw what fn →
      updateLoop upd (pre ++ s :: post) flag =
        { sources := pre.map (Source.updated upd) ++ { s with frameNew := fn } :: post
          flag := flag || pre.any (fun x => (upd x).frameNew)
          thrown := some what
          events := pre.flatMap updateCalls ++ [Event.srcUpdate s.id] } := by
  induction pre with
  | nil => intro flag s post what fn _ hs; simp [updateLoop, hs]
  | cons a rest ih =>
    intro flag s post what fn h hs
    have ha : (upd a).isThrow = false := h a (List.mem_cons_self a rest)
    have hrest : ∀ x ∈ rest, (upd x).isThrow = false :=
      fun x hx => h x (List.mem_cons_of_mem a hx)
    cases hu : upd a with
    | returned fn0 =>
      simp [updateLoop, hu, ih (flag || fn0) s post what fn hrest hs, Source.updated,
        UpdateOutcome.frameNew, updateCalls, Bool.or_assoc]
    | threw what0 fn0 => simp [hu, UpdateOutcome.isThrow] at ha

theorem updateLoop_thrown_none_iff (upd : Source → UpdateOutcome) (l : List Source) :
    ∀ flag : Bool,
      (updateLoop upd l flag).thrown = none ↔ ∀ s ∈ l, (upd s).isThrow = false := by
  induction l with
  | nil => intro flag; simp [updateLoop]
  | cons a rest ih =>
    intro flag
    cases hu : upd a with
    | returned fn => simp [updateLoop, hu, ih (flag || fn), UpdateOutcome.isThrow]
    | threw what fn => simp [updateLoop, hu, UpdateOutcome.isThrow]

theorem updateLoop_map_key (upd : Source → UpdateOutcome) (l : List Source) :
    ∀ flag : Bool, (updateLoop upd l flag).sources.map Source.key = l.map Source.key := by
  induction l with
  | nil => intro flag; simp [updateLoop]
  | cons a rest ih =>
    intro flag
    cases hu : upd a with
    | returned fn => simp [updateLoop, hu, ih (flag || fn), Source.key]
    | threw what fn => simp [updateLoop, hu, Source.key]

/-- C1. After `Device::update()` has returned, `isFrameNew()` is the OR, over all
registered sources, of the source's `isFrameNew()` as read right after its own `update()`
in that call (which is also what the sources report once the call is over). The call
returns exactly when no source's `update()` throws. With an empty registry the call
returns and the value is `false`, and the value the latch had before has no influence. -/
theorem update_isFrameNew_is_or (d : Device) (upd : Source → UpdateOutcome) :
    ((d.update upd).value = none ↔ ∀ s ∈ d.sources, (upd s).isThrow = false) ∧
    ((d.update upd).value = none →
      (d.update upd).device.isFrameNew = d.sources.any (fun s => (upd s).frameNew) ∧
      (d.update upd).device.isFrameNew =
        (d.update upd).device.getSources.any (fun s => s.frameNew) ∧
      (d.update upd).events = d.sources.flatMap updateCalls) ∧
    (d.sources = [] →
      (d.update upd).value = none ∧ (d.update upd).device.isFrameNew = false) ∧
    (∀ latch : Bool,
      (({ d with isFrameNewFlag := latch } : Device).update upd).device.isFrameNew =
        (d.update upd).device.isFrameNew) := by
  refine ⟨?_, ?_, ?_, ?_⟩
  · simp [Device.update, updateLoop_thrown_none_iff]
  · intro h
    have hall : ∀ s ∈ d.sources, (upd s).isThrow = false := by
      simpa [Device.update, updateLoop_thrown_none_iff] using h
    simp [Device.update, Device.isFrameNew, Device.getSources,
      updateLoop_of_returned upd d.sources false hall, Source.updated, Function.comp_def]
  · intro h
    simp [Device.update, Device.isFrameNew, h, updateLoop]
  · intro latch
    simp [Device.update, Device.isFrameNew]

/-- An application of `update_isFrameNew_is_or`: two sources, the second reports a new
frame. -/
theorem update_isFrameNew_is_or_witness :
    (Device.update ⟨some 7, [⟨0, Kind.Depth, some 7, true, true⟩,
        ⟨1, Kind.Color, some 7, false, true⟩], true⟩
      (fun s => UpdateOutcome.returned (decide (s.id = 1)))).device.isFrameNew = true :=
  ((update_isFrameNew_is_or ⟨some 7, [⟨0, Kind.Depth, some 7, true, true⟩,
        ⟨1, Kind.Color, some 7, false, true⟩], true⟩
      (fun s => UpdateOutcome.returned (decide (s.id = 1)))).2.1 (by decide)).1.trans
    (by decide)

/-- C6, as stated, fails: with two registered sources of which the first throws from
`update()`, the exception reaches the caller of `Device::update()`, nothing is logged,
and the second source is never updated although it would have reported a new frame. -/
theorem update_propagates_counterexample :
    (Device.update ⟨some 7, [⟨0, Kind.Depth, some 7, false, true⟩,
        ⟨1, Kind.Color, some 7, false, true⟩], false⟩
      (fun s => if s.id = 0 then UpdateOutcome.threw "frame lost" false
        else UpdateOutcome.returned true)).value = some "frame lost" ∧
    (Device.update ⟨some 7, [⟨0, Kind.Depth, some 7, false, true⟩,
        ⟨1, Kind.Color, some 7, false, true⟩], false⟩
      (fun s => if s.id = 0 then UpdateOutcome.threw "frame lost" false
        else UpdateOutcome.returned true)).events = [Event.srcUpdate 0] ∧
    (Device.update ⟨some 7, [⟨0, Kind.Depth, some 7, false, true⟩,
        ⟨1, Kind.Color, some 7, false, true⟩], false⟩
      (fun s => if s.id = 0 then UpdateOutcome.threw "frame lost" false
        else UpdateOutcome.returned true)).device.isFrameNew = false := by
  decide

/-- C6, amended. `Device::update()` has no handler of its own. When no source's
`update()` throws it returns normally, having updated every source in insertion order.
When the source at some position is the first whose `update()` throws, that exception
reaches the caller, `Device::update()` logs nothing, the sources before that position have
been updated and OR-ed into the latch, and the sources after it are left untouched: no
call is made on them. -/
theorem update_propagates_first_throw (d : Device) (upd : Source → UpdateOutcome) :
    ((∀ s ∈ d.sources, (upd s).isThrow = false) →
      (d.update upd).value = none ∧
      (d.update upd).events = d.sources.flatMap updateCalls ∧
      (d.update upd).device.sources = d.sources.map (Source.updated upd)) ∧
    (∀ (pre post : List Source) (s : Source) (what : String) (fn : Bool),
      d.sources = pre ++ s :: post →
      (∀ x ∈ pre, (upd x).isThrow = false) →
      upd s = UpdateOutcome.threw what fn →
      (d.update upd).value = some what ∧
      (d.update upd).events = pre.flatMap updateCalls ++ [Event.srcUpdate s.id] ∧
      (d.update upd).device.sources =
        pre.map (Source.updated upd) ++ { s with frameNew := fn } :: post ∧
      (d.update upd).device.isFrameNew = pre.any (fun x => (upd x).frameNew) ∧
      (∀ msg : String, Event.logError msg ∉ (d.update upd).events)) := by
  constructor
  · intro h
    simp [Device.update, updateLoop_of_returned upd d.sources false h]
  · intro pre post s what fn hsplit hpre hs
    simp [Device.update, Device.isFrameNew, hsplit,
      updateLoop_of_first_throw upd pre false s post what fn hpre hs, updateCalls]

/-- An application of `update_propagates_first_throw`: the second of three sources
throws. -/
theorem update_propagates_first_throw_witness :
    (Device.update ⟨some 7, [⟨0, Kind.Depth, some 7, false, true⟩,
        ⟨1, Kind.Color, some 7, false, true⟩, ⟨2, Kind.Body, some 7, false, true⟩], false⟩
      (fun s => if s.id = 1 then UpdateOutcome.threw "frame lost" false
        else UpdateOutcome.returned true)).value = some "frame lost" :=
  ((update_propagates_first_throw ⟨some 7, [⟨0, Kind.Depth, some 7, false, true⟩,
        ⟨1, Kind.Color, some 7, false, true⟩, ⟨2, Kind.Body, some 7, false, true⟩], false⟩
      (fun s => if s.id = 1 then UpdateOutcome.threw "frame lost" false
        else UpdateOutcome.returned true)).2
    [⟨0, Kind.Depth, some 7, false, true⟩] [⟨2, Kind.Body, some 7, false, true⟩]
    ⟨1, Kind.Color, some 7, false, true⟩ "frame lost" false rfl (by decide) rfl).1

/-! ## `Device::open`, `Device::close`, `Device::isOpen` -/

/-- C7. When `GetDefaultKinectSensor` or `Open` reports failure, `Device::open()` returns
to its caller (the exception it throws is caught inside, and logged), `getSensor()` is
null afterwards and `isOpen()` returns `false` whatever the SDK would answer. Moreover
`isOpen()` returns `false` on any device with a non-null handle when the `get_IsOpen`
query fails. -/
theorem open_failure_leaves_null (d : Device) (discovery : Option Handle) (openOk : Bool)
    (hfail : discovery = none ∨ openOk = false) :
    (d.open discovery openOk).device.getSensor = none ∧
    (∀ query : Option Bool, ((d.open discovery openOk).device.isOpen query).value = false) ∧
    (d.open discovery openOk).device.sources = d.sources ∧
    (∃ msg : String, Event.logError msg ∈ (d.open discovery openOk).events) ∧
    (∀ e : Device, e.getSensor ≠ none → (e.isOpen none).value = false) := by
  have hnull : (d.open discovery openOk).device.sensor = none := by
    rcases hfail with h | h
    · simp [Device.open, h]
    · cases discovery <;> simp [Device.open, h]
  refine ⟨hnull, ?_, ?_, ?_, ?_⟩
  · intro query
    simp [Device.isOpen, hnull]
  · cases discovery <;> cases openOk <;> simp [Device.open]
  · rcases hfail with h | h
    · exact ⟨"Failed to find sensor", by simp [Device.open, h]⟩
    · cases discovery with
      | none => exact ⟨"Failed to find sensor", by simp [Device.open]⟩
      | some hd => exact ⟨"Failed to open sensor", by simp [Device.open, h]⟩
  · intro e he
    cases hs : e.sensor with
    | none => exact absurd hs he
    | some hd => simp [Device.isOpen, hs]

/-- An application of `open_failure_leaves_null`: the sensor is found and `Open` fails on
a device that held an open handle. -/
theorem open_failure_leaves_null_witness :
    (Device.open ⟨some 3, [], false⟩ (some 7) false).device.getSensor = none :=
  (open_failure_leaves_null ⟨some 3, [], false⟩ (some 7) false (Or.inr rfl)).1

/-- C9. `close()` after `close()` leaves the device as one `close()` does and makes no
call at all, so that the two together issue the SDK's `Close` at most once; after
`close()` the handle is null and `isOpen()` returns `false`. -/
theorem close_idempotent (d : Device) :
    d.close.device.close.device = d.close.device ∧
    d.close.device.close.events = [] ∧
    (d.close.events ++ d.close.device.close.events).countP Event.isSdkClose ≤ 1 ∧
    d.close.device.getSensor = none ∧
    (∀ query : Option Bool, (d.close.device.isOpen query).value = false) := by
  cases hs : d.sensor with
  | none => simp [Device.close, hs, Device.getSensor, Device.isOpen]
  | some h => simp [Device.close, hs, Device.getSensor, Device.isOpen, Event.isSdkClose]

/-! ## `Device::initSource` -/

theorem open_sources (d : Device) (discovery : Option Handle) (openOk : Bool) :
    (d.open discovery openOk).device.sources = d.sources := by
  cases discovery <;> cases openOk <;> simp [Device.open]

theorem close_sources (d : Device) : d.close.device.sources = d.sources := by
  cases hs : d.sensor <;> simp [Device.close, hs]

theorem getSource_eq_none_iff (d : Device) (K : Kind) :
    d.getSource K = none ↔ ∀ s ∈ d.sources, s.kind ≠ K := by
  simp [Device.getSource]

theorem getSource_mem (d : Device) (K : Kind) (s : Source) (h : d.getSource K = some s) :
    s ∈ d.sources :=
  List.mem_of_find?_eq_some h

theorem initSource_lookup (d : Device) (K : Kind) (addr : Nat) (outcome : InitOutcome)
    (s : Source) (h : (d.initSource K addr outcome).value = some s) :
    (d.initSource K addr outcome).device.getSource K = some s := by
  cases hg : d.getSource K with
  | some source =>
    simp only [Device.initSource, hg] at h ⊢
    simpa [hg] using h
  | none =>
    cases outcome with
    | makeThrows what => simp [Device.initSource, hg] at h
    | initThrows what => simp [Device.initSource, hg] at h
    | succeeds fn ut =>
      simp only [Device.initSource, hg] at h ⊢
      have hg2 := hg
      simp only [Device.getSource] at hg2 ⊢
      simp only [List.find?_append, hg2]
      simpa using h

/-- C2, the code at the failing input. After `open`, `initDepthSource` and `close` the
handle is null and a Depth source is registered; `initDepthSource` then logs
"Failed : Sensor is not open", goes on and returns the registered source, not none. On a
device that was never opened it goes on as well: it logs the same message, constructs
the source, calls `init` with the null handle and registers the source. -/
theorem initSource_null_sensor_goes_on :
    (World.fresh.run [Op.open (some 7) true,
      Op.initSource Kind.Depth (InitOutcome.succeeds false true),
      Op.close]).device.getSensor = none ∧
    ((World.fresh.run [Op.open (some 7) true,
      Op.initSource Kind.Depth (InitOutcome.succeeds false true),
      Op.close]).device.initDepthSource 1 (InitOutcome.succeeds false true)).value =
        some ⟨0, Kind.Depth, some 7, false, true⟩ ∧
    ((World.fresh.run [Op.open (some 7) true,
      Op.initSource Kind.Depth (InitOutcome.succeeds false true),
      Op.close]).device.initDepthSource 1 (InitOutcome.succeeds false true)).events =
        [Event.logError "Failed : Sensor is not open",
         Event.logWarningAlreadyInitialised Kind.Depth] ∧
    (Device.new.initDepthSource 0 (InitOutcome.succeeds false true)).value =
        some ⟨0, Kind.Depth, none, false, true⟩ ∧
    (Device.new.initDepthSource 0 (InitOutcome.succeeds false true)).device.getSources =
        [⟨0, Kind.Depth, none, false, true⟩] ∧
    (Device.new.initDepthSource 0 (InitOutcome.succeeds false true)).events =
        [Event.logError "Failed : Sensor is not open",
         Event.srcMake Kind.Depth 0, Event.srcInit 0 none] := by
  decide

/-- C5. With no source of kind `K` registered: when constructing the source or its
`init` throws, `initSource` returns none and the registry is what it was; otherwise the
new source (at the address allocated for it, of kind `K`, initialised with the device's
handle) is appended after the sources already registered, which keep their order, and
that instance is returned. -/
theorem initSource_fresh_kind (d : Device) (K : Kind) (addr : Nat)
    (hno : ∀ s ∈ d.sources, s.kind ≠ K) :
    (∀ what : String,
      (d.initSource K addr (InitOutcome.makeThrows what)).value = none ∧
      (d.initSource K addr (InitOutcome.makeThrows what)).device.getSources = d.getSources) ∧
    (∀ what : String,
      (d.initSource K addr (InitOutcome.initThrows what)).value = none ∧
      (d.initSource K addr (InitOutcome.initThrows what)).device.getSources = d.getSources) ∧
    (∀ frameNew useTexture : Bool,
      (d.initSource K addr (InitOutcome.succeeds frameNew useTexture)).value =
        some ⟨addr, K, d.sensor, frameNew, useTexture⟩ ∧
      (d.initSource K addr (InitOutcome.succeeds frameNew useTexture)).device.getSources =
        d.getSources ++ [⟨addr, K, d.sensor, frameNew, useTexture⟩]) := by
  have hg : d.getSource K = none := (getSource_eq_none_iff d K).2 hno
  refine ⟨?_, ?_, ?_⟩
  · intro what; simp [Device.initSource, hg, Device.getSources]
  · intro what; simp [Device.initSource, hg, Device.getSources]
  · intro frameNew useTexture; simp [Device.initSource, hg, Device.getSources]

/-- An application of `initSource_fresh_kind`: a Color source is added to a device that
holds a Depth source. -/
theorem initSource_fresh_kind_witness :
    (Device.initSource ⟨some 7, [⟨0, Kind.Depth, some 7, false, true⟩], false⟩ Kind.Color 1
      (InitOutcome.succeeds false true)).device.getSources =
      [⟨0, Kind.Depth, some 7, false, true⟩, ⟨1, Kind.Color, some 7, false, true⟩] :=
  ((initSource_fresh_kind ⟨some 7, [⟨0, Kind.Depth, some 7, false, true⟩], false⟩
    Kind.Color 1 (by decide)).2.2 false true).2

/-! ## Sources across `close` and `open` -/

/-- C8, as stated, fails: after `open`, `initDepthSource` (which returns a source bound
to handle 7), `close` and a second successful `open` (handle 8), `getDepthSource` and
`getSources` both still give that source, bound to the closed handle 7. -/
theorem close_reopen_counterexample :
    ((World.fresh.run [Op.open (some 7) true]).device.initSource Kind.Depth 0
      (InitOutcome.succeeds false true)).value = some ⟨0, Kind.Depth, some 7, false, true⟩ ∧
    (World.fresh.run [Op.open (some 7) true,
      Op.initSource Kind.Depth (InitOutcome.succeeds false true),
      Op.close, Op.open (some 8) true]).device.getDepthSource =
        some ⟨0, Kind.Depth, some 7, false, true⟩ ∧
    (World.fresh.run [Op.open (some 7) true,
      Op.initSource Kind.Depth (InitOutcome.succeeds false true),
      Op.close, Op.open (some 8) true]).device.getSources =
        [⟨0, Kind.Depth, some 7, false, true⟩] ∧
    (World.fresh.run [Op.open (some 7) true,
      Op.initSource Kind.Depth (InitOutcome.succeeds false true),
      Op.close, Op.open (some 8) true]).device.getSensor = some 8 := by
  decide

/-- C8, amended. `close()` and `open()` leave the registry alone: after a successful
`open` (handle `h`), an `initSource` of kind `K` that returns `s`, `close`, and a second
successful `open` (handle `h2`), the typed lookup for `K` still returns `s` and `s` is
among `getSources()`; when `s` was created by that `initSource` call it is still bound to
the first handle `h`. -/
theorem close_reopen_keeps_sources (d : Device) (K : Kind) (addr : Nat)
    (outcome : InitOutcome) (h h2 : Handle) (s : Source)
    (hs : ((d.open (some h) true).device.initSource K addr outcome).value = some s) :
    (((d.open (some h) true).device.initSource K addr outcome).device.close.device.open
      (some h2) true).device.getSource K = some s ∧
    s ∈ (((d.open (some h) true).device.initSource K addr outcome).device.close.device.open
      (some h2) true).device.getSources ∧
    (((d.open (some h) true).device.initSource K addr outcome).device.close.device.open
      (some h2) true).device.getSensor = some h2 ∧
    (d.getSource K = none → s.sensor = some h) := by
  have hl := initSource_lookup _ K addr outcome s hs
  have hsrc : (((d.open (some h) true).device.initSource K addr outcome).device.close.device.open
      (some h2) true).device.sources =
      ((d.open (some h) true).device.initSource K addr outcome).device.sources := by
    rw [open_sources, close_sources]
  have hget : (((d.open (some h) true).device.initSource K addr outcome).device.close.device.open
      (some h2) true).device.getSource K = some s := by
    simpa [Device.getSource, hsrc] using hl
  refine ⟨hget, getSource_mem _ K s hget, by simp [Device.open, Device.getSensor], ?_⟩
  intro hnone
  have hnone2 : (d.open (some h) true).device.getSource K = none := by
    simpa [Device.getSource, Device.open] using hnone
  cases outcome with
  | makeThrows what => simp [Device.initSource, hnone2] at hs
  | initThrows what => simp [Device.initSource, hnone2] at hs
  | succeeds fn ut =>
    simp only [Device.initSource, hnone2, Option.some.injEq] at hs
    rw [← hs]
    simp [Device.open]

/-- An application of `close_reopen_keeps_sources` on a new device. -/
theorem close_reopen_keeps_sources_witness :
    ((((Device.new.open (some 7) true).device.initSource Kind.Depth 0
      (InitOutcome.succeeds false true)).device.close.device.open
      (some 8) true).device.getSource Kind.Depth =
        some ⟨0, Kind.Depth, some 7, false, true⟩) :=
  (close_reopen_keeps_sources Device.new Kind.Depth 0 (InitOutcome.succeeds false true) 7 8
    ⟨0, Kind.Depth, some 7, false, true⟩ (by decide)).1

/-! ## `Device::drawWorld` -/

theorem count_take_le_of_wellNested (push pop : Event) (hne : push ≠ pop) (l : List Event) :
    ∀ depth : Nat, wellNested push pop l depth = true →
      ∀ n : Nat, (l.take n).count pop ≤ depth + (l.take n).count push := by
  induction l with
  | nil => intro depth _ n; simp
  | cons e es ih =>
    intro depth h n
    cases n with
    | zero => simp
    | succ n =>
      by_cases hpop : e = pop
      · subst hpop
        cases depth with
        | zero => simp [wellNested] at h
        | succ k =>
          have h2 : wellNested push e es k = true := by simpa [wellNested] using h
          have := ih k h2 n
          have hne2 : ¬ (e = push) := fun heq => hne heq.symm
          simp [List.take_succ_cons, List.count_cons, hne2]
          omega
      · by_cases hpush : e = push
        · subst hpush
          have h2 : wellNested e pop es (depth + 1) = true := by
            simpa [wellNested, hpop] using h
          have := ih (depth + 1) h2 n
          simp [List.take_succ_cons, List.count_cons, hpop]
          omega
        · have h2 : wellNested push pop es depth = true := by
            simpa [wellNested, hpop, hpush] using h
          have := ih depth h2 n
          simp [List.take_succ_cons, List.count_cons, hpop, hpush]
          omega

theorem usePointSize_iff (window : Option Int) :
    usePointSize window = true ↔ ∃ v : Int, window = some v ∧ v ≤ 2 := by
  cases window <;> simp [usePointSize]

theorem drawWorld_events_counts (colorSource bodySource : Option Source) (depth : Source)
    (window : Option Int) :
    (drawPointCloud colorSource depth window ++ drawBodies bodySource
      ++ drawFrustums colorSource depth).count Event.ofPushStyle = 2 ∧
    (drawPointCloud colorSource depth window ++ drawBodies bodySource
      ++ drawFrustums colorSource depth).count Event.ofPopStyle = 2 ∧
    (drawPointCloud colorSource depth window ++ drawBodies bodySource
      ++ drawFrustums colorSource depth).count Event.ofPushMatrix =
        (if bodySource.isSome then 1 else 0) ∧
    (drawPointCloud colorSource depth window ++ drawBodies bodySource
      ++ drawFrustums colorSource depth).count Event.ofPopMatrix =
        (if bodySource.isSome then 1 else 0) ∧
    (drawPointCloud colorSource depth window ++ drawBodies bodySource
      ++ drawFrustums colorSource depth).count Event.glPushAttrib =
        (if usePointSize window then 1 else 0) ∧
    (drawPointCloud colorSource depth window ++ drawBodies bodySource
      ++ drawFrustums colorSource depth).count Event.glPopAttrib =
        (if usePointSize window then 1 else 0) := by
  cases colorSource <;> cases bodySource <;> cases hu : usePointSize window <;>
    simp only [drawPointCloud, drawBodies, drawFrustums, hu, List.cons_append,
      List.nil_append, List.append_assoc, List.append_nil, if_true, if_false,
      Bool.false_eq_true, List.count_cons, List.count_nil] <;>
    simp

theorem drawWorld_events_nested (colorSource bodySource : Option Source) (depth : Source)
    (window : Option Int) :
    wellNested Event.ofPushStyle Event.ofPopStyle
      (drawPointCloud colorSource depth window ++ drawBodies bodySource
        ++ drawFrustums colorSource depth) 0 = true ∧
    wellNested Event.ofPushMatrix Event.ofPopMatrix
      (drawPointCloud colorSource depth window ++ drawBodies bodySource
        ++ drawFrustums colorSource depth) 0 = true ∧
    wellNested Event.glPushAttrib Event.glPopAttrib
      (drawPointCloud colorSource depth window ++ drawBodies bodySource
        ++ drawFrustums colorSource depth) 0 = true := by
  cases colorSource <;> cases bodySource <;> cases hu : usePointSize window <;>
    simp [drawPointCloud, drawBodies, drawFrustums, hu, wellNested]

/-- C10. Whatever sources are registered and whatever the window is, the calls issued by
`Device::drawWorld()` are balanced: as many `ofPushStyle` as `ofPopStyle`, as many
`ofPushMatrix` as `ofPopMatrix`, as many `glPushAttrib` as `glPopAttrib`; `glPushAttrib`
and `glPopAttrib` are each issued exactly when there is a window with GL major version at
most 2 and a Depth source is present; in no initial part of the sequence do the pops of a
kind outnumber its pushes; and without a Depth source the only call is the error log, so
no push, pop, bind or draw call is issued. -/
theorem drawWorld_balanced (d : Device) (window : Option Int) :
    (d.drawWorld window).events.count Event.ofPushStyle =
      (d.drawWorld window).events.count Event.ofPopStyle ∧
    (d.drawWorld window).events.count Event.ofPushMatrix =
      (d.drawWorld window).events.count Event.ofPopMatrix ∧
    (d.drawWorld window).events.count Event.glPushAttrib =
      (d.drawWorld window).events.count Event.glPopAttrib ∧
    (Event.glPushAttrib ∈ (d.drawWorld window).events ↔
      (∃ v : Int, window = some v ∧ v ≤ 2) ∧ d.getDepthSource ≠ none) ∧
    (Event.glPopAttrib ∈ (d.drawWorld window).events ↔
      (∃ v : Int, window = some v ∧ v ≤ 2) ∧ d.getDepthSource ≠ none) ∧
    (∀ n : Nat, ((d.drawWorld window).events.take n).count Event.ofPopStyle ≤
      ((d.drawWorld window).events.take n).count Event.ofPushStyle) ∧
    (∀ n : Nat, ((d.drawWorld window).events.take n).count Event.ofPopMatrix ≤
      ((d.drawWorld window).events.take n).count Event.ofPushMatrix) ∧
    (∀ n : Nat, ((d.drawWorld window).events.take n).count Event.glPopAttrib ≤
      ((d.drawWorld window).events.take n).count Event.glPushAttrib) ∧
    (d.getDepthSource = none →
      (d.drawWorld window).events = [Event.logError "No depth source initialised"]) := by
  cases hD : d.getDepthSource with
  | none =>
    have hev : (d.drawWorld window).events = [Event.logError "No depth source initialised"] := by
      simp [Device.drawWorld, hD]
    rw [hev]
    refine ⟨by simp [List.count_cons], by simp [List.count_cons], by simp [List.count_cons],
      by simp, by simp, ?_, ?_, ?_, fun _ => rfl⟩ <;>
    · intro n
      cases n <;> simp [List.count_cons]
  | some depth =>
    have hev : (d.drawWorld window).events =
        drawPointCloud d.getColorSource depth window ++ drawBodies d.getBodySource
          ++ drawFrustums d.getColorSource depth := by
      simp [Device.drawWorld, hD]
    rw [hev]
    obtain ⟨c1, c2, c3, c4, c5, c6⟩ :=
      drawWorld_events_counts d.getColorSource d.getBodySource depth window
    obtain ⟨n1, n2, n3⟩ :=
      drawWorld_events_nested d.getColorSource d.getBodySource depth window
    have hmem : ∀ e : Event, e ∈ (drawPointCloud d.getColorSource depth window ++
        drawBodies d.getBodySource ++ drawFrustums d.getColorSource depth) ↔
        0 < (drawPointCloud d.getColorSource depth window ++
        drawBodies d.getBodySource ++ drawFrustums d.getColorSource depth).count e :=
      fun e => List.count_pos_iff.symm
    refine ⟨by rw [c1, c2], by rw [c3, c4], by rw [c5, c6], ?_, ?_, ?_, ?_, ?_, ?_⟩
    · rw [hmem, c5, ← usePointSize_iff]
      cases usePointSize window <;> simp
    · rw [hmem, c6, ← usePointSize_iff]
      cases usePointSize window <;> simp
    · intro n
      simpa using count_take_le_of_wellNested Event.ofPushStyle Event.ofPopStyle
        (by simp) _ 0 n1 n
    · intro n
      simpa using count_take_le_of_wellNested Event.ofPushMatrix Event.ofPopMatrix
        (by simp) _ 0 n2 n
    · intro n
      simpa using count_take_le_of_wellNested Event.glPushAttrib Event.glPopAttrib
        (by simp) _ 0 n3 n
    · intro h; exact absurd h (by simp)

/-- An application of `drawWorld_balanced`: only a Color source is registered, so there
is no Depth source. -/
theorem drawWorld_balanced_witness :
    (Device.drawWorld ⟨some 7, [⟨0, Kind.Color, some 7, false, true⟩], false⟩ (some 2)).events =
      [Event.logError "No depth source initialised"] :=
  (drawWorld_balanced ⟨some 7, [⟨0, Kind.Color, some 7, false, true⟩], false⟩
    (some 2)).2.2.2.2.2.2.2.2 (by decide)

/-! ## The registry along sequences of calls -/

theorem getSource_map_key (d : Device) (K : Kind) :
    (d.getSource K).map Source.key = d.keys.find? (fun k => decide (k.2.1 = K)) := by
  simp only [Device.getSource, Device.keys, List.find?_map]
  rfl

theorem run_cons (w : World) (op : Op) (later : List Op) :
    w.run (op :: later) = (w.step op).run later := rfl

/-- Every call either leaves the keys of the registry as they are, or is an `initSource`
that found no source of its kind and appended the new one. -/
theorem step_cases (w : World) (op : Op) :
    ((w.step op).device.keys = w.device.keys ∧ w.nextAddr ≤ (w.step op).nextAddr) ∨
    (∃ (K : Kind) (fn ut : Bool),
      op = Op.initSource K (InitOutcome.succeeds fn ut) ∧
      w.device.getSource K = none ∧
      (w.step op).device.sources =
        w.device.sources ++ [⟨w.nextAddr, K, w.device.sensor, fn, ut⟩] ∧
      (w.step op).nextAddr = w.nextAddr + 1) := by
  cases op with
  | «open» discovery openOk =>
    left; simp [World.step, World.after, Device.keys, open_sources]
  | close => left; simp [World.step, World.after, Device.keys, close_sources]
  | isOpen query =>
    left
    cases hs : w.device.sensor <;> cases query <;>
      simp [World.step, World.after, Device.isOpen, hs]
  | initSource K outcome =>
    cases hg : w.device.getSource K with
    | some source => left; simp [World.step, World.after, Device.initSource, hg]
    | none =>
      cases outcome with
      | makeThrows what => left; simp [World.step, World.after, Device.initSource, hg]
      | initThrows what => left; simp [World.step, World.after, Device.initSource, hg]
      | succeeds fn ut =>
        right
        exact ⟨K, fn, ut, rfl, hg, by simp [World.step, World.after, Device.initSource, hg],
          by simp [World.step, World.after]⟩
  | getSource K => left; simp [World.step]
  | getSources => left; simp [World.step]
  | getSensor => left; simp [World.step]
  | update upd =>
    left
    simp [World.step, World.after, Device.update, Device.keys, updateLoop_map_key]
  | isFrameNew => left; simp [World.step]
  | setUseTextures useTexture hasTexture =>
    left
    simp only [World.step, World.after, Device.setUseTextures, Device.keys,
      Device.getSources, List.map_map, le_refl, and_true]
    apply List.map_congr_left
    intro a _
    by_cases hc : hasTexture a.kind = true <;> simp [hc, Source.key]
  | drawWorld window =>
    left
    cases hd : w.device.getDepthSource <;>
      simp [World.step, World.after, Device.drawWorld, hd]

/-- Along every sequence of calls on a new `Device`: no two registered sources have the
same dynamic type, no two the same address, and every address in use is below the next
one to be allocated. -/
theorem run_invariant (ops : List Op) :
    ((World.fresh.run ops).device.keys.map (fun k => k.2.1)).Nodup ∧
    ((World.fresh.run ops).device.keys.map (fun k => k.1)).Nodup ∧
    (∀ k ∈ (World.fresh.run ops).device.keys, k.1 < (World.fresh.run ops).nextAddr) := by
  induction ops using List.reverseRecOn with
  | nil => simp [World.run, World.fresh, Device.new, Device.keys]
  | append_singleton l a ih =>
    obtain ⟨hk, hi, hlt⟩ := ih
    have hrun : World.fresh.run (l ++ [a]) = (World.fresh.run l).step a := by
      simp [World.run, List.foldl_append]
    rw [hrun]
    rcases step_cases (World.fresh.run l) a with ⟨hkeys, hle⟩ | ⟨K, fn, ut, _, hg, hsrc, hnext⟩
    · rw [hkeys]
      exact ⟨hk, hi, fun k hkmem => lt_of_lt_of_le (hlt k hkmem) hle⟩
    · have hkeys : ((World.fresh.run l).step a).device.keys =
          (World.fresh.run l).device.keys ++
            [((World.fresh.run l).nextAddr, K, (World.fresh.run l).device.sensor)] := by
        simp [Device.keys, hsrc, Source.key]
      have hnoK : ∀ k ∈ (World.fresh.run l).device.keys, k.2.1 ≠ K := by
        have := getSource_map_key (World.fresh.run l).device K
        rw [hg] at this
        have h2 := this.symm
        simp only [Option.map_none'] at h2
        intro k hkmem
        have := List.find?_eq_none.1 h2 k hkmem
        simpa using this
      rw [hkeys, hnext]
      refine ⟨?_, ?_, ?_⟩
      · rw [List.map_append, List.nodup_append]
        refine ⟨hk, by simp, ?_⟩
        intro x hx hx2
        simp only [List.map_cons, List.map_nil, List.mem_singleton] at hx2
        obtain ⟨k, hkmem, rfl⟩ := List.mem_map.1 hx
        exact hnoK k hkmem hx2
      · rw [List.map_append, List.nodup_append]
        refine ⟨hi, by simp, ?_⟩
        intro x hx hx2
        simp only [List.map_cons, List.map_nil, List.mem_singleton] at hx2
        obtain ⟨k, hkmem, rfl⟩ := List.mem_map.1 hx
        exact absurd hx2 (Nat.ne_of_lt (hlt k hkmem))
      · intro k hkmem
        rcases List.mem_append.1 hkmem with h1 | h1
        · exact Nat.lt_succ_of_lt (hlt k h1)
        · simp only [List.mem_singleton] at h1
          simp [h1]

theorem find_of_nodup_kind (K : Kind) (l : List Source) :
    (l.map Source.kind).Nodup → ∀ s ∈ l, s.kind = K →
      l.find? (fun source => decide (source.kind = K)) = some s := by
  induction l with
  | nil => intro _ s hs; simp at hs
  | cons a rest ih =>
    intro hnd s hs hk
    rw [List.map_cons, List.nodup_cons] at hnd
    rcases List.mem_cons.1 hs with h | h
    · subst h; simp [hk]
    · have hne : a.kind ≠ K := by
        intro ha
        exact hnd.1 (List.mem_map.2 ⟨s, h, by rw [hk, ha]⟩)
      simp only [List.find?_cons, hne, decide_False]
      exact ih hnd.2 s h hk

theorem keys_map_kind (d : Device) :
    d.keys.map (fun k => k.2.1) = d.sources.map Source.kind := by
  simp [Device.keys, Source.key, Function.comp_def]

theorem keys_map_id (d : Device) :
    d.keys.map (fun k => k.1) = d.sources.map Source.id := by
  simp [Device.keys, Source.key, Function.comp_def]

theorem step_getSource_key (w : World) (op : Op) (K : Kind) (k : Nat × Kind × Option Handle)
    (h : (w.device.getSource K).map Source.key = some k) :
    ((w.step op).device.getSource K).map Source.key = some k := by
  rw [getSource_map_key] at h ⊢
  rcases step_cases w op with ⟨hkeys, _⟩ | ⟨K2, fn, ut, _, _, hsrc, _⟩
  · rw [hkeys]; exact h
  · have hkeys : (w.step op).device.keys =
        w.device.keys ++ [(w.nextAddr, K2, w.device.sensor)] := by
      simp [Device.keys, hsrc, Source.key]
    rw [hkeys, List.find?_append, h]
    rfl

theorem run_getSource_key (later : List Op) (K : Kind) (k : Nat × Kind × Option Handle) :
    ∀ w : World, (w.device.getSource K).map Source.key = some k →
      ((w.run later).device.getSource K).map Source.key = some k := by
  induction later with
  | nil => intro w h; exact h
  | cons op rest ih =>
    intro w h
    rw [run_cons]
    exact ih (w.step op) (step_getSource_key w op K k h)

/-- C3. Along every sequence of calls on a new `Device` the registry holds at most one
source of each kind; and `initSource` for a kind of which a source is registered returns
that registered source and leaves the device, hence the registry with its contents, order
and size, as it was. -/
theorem registry_at_most_one_per_kind (ops : List Op) (K : Kind) :
    (World.fresh.run ops).device.getSources.countP (fun s => decide (s.kind = K)) ≤ 1 ∧
    (∀ (addr : Nat) (outcome : InitOutcome) (s : Source),
      s ∈ (World.fresh.run ops).device.getSources → s.kind = K →
      ((World.fresh.run ops).device.initSource K addr outcome).value = some s ∧
      ((World.fresh.run ops).device.initSource K addr outcome).device =
        (World.fresh.run ops).device) := by
  have hnd : ((World.fresh.run ops).device.sources.map Source.kind).Nodup := by
    rw [← keys_map_kind]; exact (run_invariant ops).1
  constructor
  · have hc := List.nodup_iff_count_le_one.1 hnd K
    rw [List.count_eq_countP, List.countP_map] at hc
    have hfun : ((fun x => x == K) ∘ Source.kind) = (fun s : Source => decide (s.kind = K)) := by
      funext x
      by_cases hx : x.kind = K <;> simp [hx]
    rw [hfun] at hc
    exact hc
  · intro addr outcome s hs hk
    have hfind : (World.fresh.run ops).device.getSource K = some s :=
      find_of_nodup_kind K _ hnd s hs hk
    simp [Device.initSource, hfind]

/-- An application of `registry_at_most_one_per_kind`: the scenario open, init-depth,
init-depth again. -/
theorem registry_at_most_one_per_kind_witness :
    ((World.fresh.run [Op.open (some 7) true,
      Op.initSource Kind.Depth (InitOutcome.succeeds false true)]).device.initSource
        Kind.Depth 1 (InitOutcome.succeeds true true)).value =
      some ⟨0, Kind.Depth, some 7, false, true⟩ :=
  ((registry_at_most_one_per_kind [Op.open (some 7) true,
      Op.initSource Kind.Depth (InitOutcome.succeeds false true)] Kind.Depth).2
    1 (InitOutcome.succeeds true true) ⟨0, Kind.Depth, some 7, false, true⟩
    (by decide) rfl).1

/-- C4. On a new `Device`, as long as no `initSource` call for kind `K` has returned a
source, the typed lookup for `K` gives none. Once an `initSource` call for `K` has
returned `s`, the lookup gives `s`, and after any further calls (of any members, for any
kinds) it gives the same object: same address, same type, same sensor binding. Addresses
of registered sources are pairwise distinct, so the address names one registry entry. -/
theorem getSource_returns_initialised (K : Kind) :
    (∀ ops : List Op,
      (∀ (pre post : List Op) (outcome : InitOutcome),
        ops = pre ++ Op.initSource K outcome :: post →
        ((World.fresh.run pre).device.initSource K
          (World.fresh.run pre).nextAddr outcome).value = none) →
      (World.fresh.run ops).device.getSource K = none) ∧
    (∀ (w : World) (outcome : InitOutcome) (s : Source) (later : List Op),
      (w.device.initSource K w.nextAddr outcome).value = some s →
      (w.step (Op.initSource K outcome)).device.getSource K = some s ∧
      ∃ s2 : Source,
        ((w.step (Op.initSource K outcome)).run later).device.getSource K = some s2 ∧
        s2.id = s.id ∧ s2.kind = s.kind ∧ s2.sensor = s.sensor) ∧
    (∀ ops : List Op, ((World.fresh.run ops).device.getSources.map Source.id).Nodup) := by
  refine ⟨?_, ?_, ?_⟩
  · intro ops
    induction ops using List.reverseRecOn with
    | nil => intro _; simp [World.run, World.fresh, Device.new, Device.getSource]
    | append_singleton l a ih =>
      intro H
      have hprev : (World.fresh.run l).device.getSource K = none := by
        apply ih
        intro pre post outcome hl
        exact H pre (post ++ [a]) outcome (by simp [hl])
      have hrun : World.fresh.run (l ++ [a]) = (World.fresh.run l).step a := by
        simp [World.run, List.foldl_append]
      rw [hrun]
      have hkey : ∀ d : Device, d.getSource K = none ↔
          d.keys.find? (fun k => decide (k.2.1 = K)) = none := by
        intro d
        rw [← getSource_map_key]
        cases d.getSource K <;> simp
      rcases step_cases (World.fresh.run l) a with
        ⟨hkeys, _⟩ | ⟨K2, fn, ut, hop, hg, hsrc, _⟩
      · rw [hkey, hkeys, ← hkey]; exact hprev
      · by_cases hK : K2 = K
        · subst hK
          have := H l [] (InitOutcome.succeeds fn ut) (by simp [hop])
          simp [Device.initSource, hg] at this
        · have hprev2 := hprev
          simp only [Device.getSource] at hprev2 ⊢
          rw [hsrc, List.find?_append, hprev2]
          simp [hK]
  · intro w outcome s later hs
    have h1 : (w.step (Op.initSource K outcome)).device.getSource K = some s := by
      have := initSource_lookup w.device K w.nextAddr outcome s hs
      simpa [World.step, World.after] using this
    refine ⟨h1, ?_⟩
    have h2 := run_getSource_key later K s.key (w.step (Op.initSource K outcome))
      (by rw [h1]; rfl)
    cases hg : ((w.step (Op.initSource K outcome)).run later).device.getSource K with
    | none => rw [hg] at h2; simp at h2
    | some s2 =>
      rw [hg] at h2
      simp only [Option.map_some', Option.some.injEq, Source.key, Prod.mk.injEq] at h2
      exact ⟨s2, rfl, h2.1, h2.2.1, h2.2.2⟩
  · intro ops
    have := (run_invariant ops).2.1
    rwa [keys_map_id] at this

/-- An application of `getSource_returns_initialised`: a Depth source is initialised on
an open device and then looked up after an update, a texture toggle and a draw. -/
theorem getSource_returns_initialised_witness :
    ∃ s2 : Source,
      (((World.fresh.run [Op.open (some 7) true]).step
        (Op.initSource Kind.Depth (InitOutcome.succeeds false true))).run
        [Op.update (fun _ => UpdateOutcome.returned true),
         Op.setUseTextures false (fun _ => true),
         Op.drawWorld (some 2)]).device.getSource Kind.Depth = some s2 ∧
      s2.id = 0 ∧ s2.kind = Kind.Depth ∧ s2.sensor = some 7 :=
  ((getSource_returns_initialised Kind.Depth).2.1 (World.fresh.run [Op.open (some 7) true])
    (InitOutcome.succeeds false true) ⟨0, Kind.Depth, some 7, false, true⟩
    [Op.update (fun _ => UpdateOutcome.returned true),
     Op.setUseTextures false (fun _ => true),
     Op.drawWorld (some 2)] (by decide)).2

end ofxKinectForWindows2
